import Mathlib

/-!
# Verification of the price-oracle component (`src/agent/src/price_oracle.py`)

Shallow embedding of the `PriceOracle` class.  Python values are modelled as
follows:

* JSON payloads returned by the HTTP providers become the inductive `Json`
  (numbers as rationals — no claim below depends on binary floating point
  rounding, every concrete price used is exactly representable);
* Python exceptions become the inductive `PyError`; a fallible method of the
  class becomes a function into `Except PyError _`;
* the ambient world (one parsed HTTP response per provider per requested
  identifier, and the wall clock read by `datetime.now()`) becomes the
  explicit `Env` record threaded through the functions;
* the three `os.getenv` API keys loaded in `__init__` become the `Config`
  record; Python truthiness of a possibly-absent string is `truthy`;
* `print` calls observable to the claims are returned as data (`reported`
  in `PriceResult`, log events in the sweep trace).
-/

/-- A parsed JSON value, as produced by `response.json()`. -/
inductive Json where
  | null : Json
  | bool : Bool → Json
  | num : ℚ → Json
  | str : String → Json
  | arr : List Json → Json
  | obj : List (String × Json) → Json

/-- The Python exceptions that the oracle's code paths can raise.
`valueError` and `keyError`/`typeError` mirror the builtin exception classes;
`transportError` stands for the `aiohttp` network/HTTP-level exceptions
raised before a parsed JSON body exists. -/
inductive PyError where
  | valueError : String → PyError
  | keyError : String → PyError
  | typeError : String → PyError
  | transportError : String → PyError
deriving DecidableEq, Repr

/-- Key lookup in a JSON object, `fields.lookup k` for Python `d.get(k)`-style
probing.  Non-object values have no keys. -/
def Json.lookup : Json → String → Option Json
  | .obj fields, k => fields.lookup k
  | _, _ => none

/-- Python `k in d` on the (object-shaped) responses the adapters receive:
key membership.  The theorems below only exercise object responses; for the
other JSON shapes, where Python `in` means element or substring membership or
raises `TypeError`, this returns `false`. -/
def Json.hasKey (j : Json) (k : String) : Bool :=
  (j.lookup k).isSome

/-- Python subscript `d[k]`: on a dict a missing key raises `KeyError`; on any
non-dict value a string subscript raises `TypeError`. -/
def Json.getKey (j : Json) (k : String) : Except PyError Json :=
  match j with
  | .obj fields =>
    match fields.lookup k with
    | some v => .ok v
    | none => .error (.keyError k)
  | _ => .error (.typeError k)

/-- Python `float(x)` on a JSON value.  A JSON number converts to itself.
Numeric-string parsing (`float("123.4")`) is not exercised by any theorem
below, so every non-number is collapsed to the `ValueError` that `float`
raises on non-numeric input. -/
def pyFloat : Json → Except PyError ℚ
  | .num q => .ok q
  | _ => .error (.valueError "could not convert value to float")

/-- Python `int(x)` on a float/rational: truncation toward zero. -/
def pyInt (q : ℚ) : ℤ :=
  q.num.tdiv (q.den : ℤ)

/-- Python truthiness of an optional string: `None` and `""` are falsy.
This is the test `if self.some_key:` applies to a key loaded by
`os.getenv`. -/
def truthy : Option String → Bool
  | none => false
  | some s => !s.isEmpty

/-- The API keys loaded from the environment in `PriceOracle.__init__`:
`ALPHA_VANTAGE_API_KEY`, `COINGECKO_API_KEY`, `POLYGON_API_KEY`.  `none`
models an unset variable. -/
structure Config where
  alpha_vantage_key : Option String
  coingecko_key : Option String
  polygon_key : Option String

/-- The ambient world of one oracle call: for each provider, the parsed JSON
body the provider returns for a given request identifier (`Except.error`
models a transport/HTTP failure before a JSON body exists), plus the wall
clock (`datetime.now().isoformat()` and `datetime.now().timestamp()`).
Alpha Vantage and Polygon requests are keyed by the stock symbol, CoinGecko
by the CoinGecko id, Coinbase by the currency symbol sent in `params`. -/
structure Env where
  alpha_vantage_response : String → Except String Json
  coingecko_response : String → Except String Json
  coinbase_response : String → Except String Json
  polygon_response : String → Except String Json
  now_iso : String
  now_ts : ℚ

/-- One entry of `self.crypto_mappings`: the provider-specific identifiers
for a canonical crypto ticker. -/
structure CryptoIds where
  coingecko : String
  coinbase : String
deriving DecidableEq, Repr

/-- Embedding of `self.crypto_mappings` from `__init__`: the static crypto-symbol table. -/
def crypto_mappings : List (String × CryptoIds) :=
  [("BTC", ⟨"bitcoin", "BTC-USD"⟩),
   ("ETH", ⟨"ethereum", "ETH-USD"⟩),
   ("SOL", ⟨"solana", "SOL-USD"⟩)]

/-- The membership test `symbol in self.crypto_mappings` used by both
`get_price` and `get_crypto_price` to classify a ticker. -/
def is_crypto_symbol (symbol : String) : Bool :=
  (crypto_mappings.lookup symbol).isSome

/-- The normalized quote dict each `_fetch_*` method returns.  Fields a given
provider does not set are `none`; `change_percent` is kept as the raw JSON
value because `_fetch_alpha_vantage_stock` stores it without conversion. -/
structure Quote where
  symbol : String
  price : ℚ
  change : Option ℚ
  change_percent : Option Json
  change_24h : Option ℚ
  timestamp : String
  source : String

/-- A quote with the `timestamp` field erased, for comparing two quotes
obtained at different wall-clock instants. -/
structure QuoteData where
  symbol : String
  price : ℚ
  change : Option ℚ
  change_percent : Option Json
  change_24h : Option ℚ
  source : String

/-- Erase the timestamp of a quote. -/
def Quote.stripTimestamp (q : Quote) : QuoteData :=
  ⟨q.symbol, q.price, q.change, q.change_percent, q.change_24h, q.source⟩

/-- Body of `_fetch_alpha_vantage_stock` after `response.json()` returned
`data`: check `"Global Quote" in data`, then read the nested quote fields
(raw subscripts — a missing nested key raises `KeyError`), else raise
`ValueError(f"No data found for {symbol}")`. -/
def parse_alpha_vantage (symbol : String) (data : Json) (now_iso : String) :
    Except PyError Quote :=
  match data.lookup "Global Quote" with
  | some quote => do
    let pj ← quote.getKey "05. price"
    let price ← pyFloat pj
    let cj ← quote.getKey "09. change"
    let change ← pyFloat cj
    let cp ← quote.getKey "10. change percent"
    .ok { symbol := symbol, price := price, change := some change,
          change_percent := some cp, change_24h := none,
          timestamp := now_iso, source := "alpha_vantage" }
  | none => .error (.valueError ("No data found for " ++ symbol))

/-- Body of `_fetch_coingecko_price` after the mapping lookup produced
`gecko_id` and `response.json()` returned `data`: check `gecko_id in data`,
read `data[gecko_id]["usd"]` and `data[gecko_id].get("usd_24h_change", 0)`
with default `0`; else raise `ValueError(f"No data found for {symbol}")`.
The source stores both values without conversion; because the embedding
types `Quote.price` as a number, the raw reads go through `pyFloat`, which
is the identity on the JSON numbers every theorem below uses. -/
def parse_coingecko (symbol gecko_id : String) (data : Json) (now_iso : String) :
    Except PyError Quote :=
  match data.lookup gecko_id with
  | some inner => do
    let pj ← inner.getKey "usd"
    let price ← pyFloat pj
    let change24 ←
      match inner.lookup "usd_24h_change" with
      | some v => pyFloat v
      | none => .ok 0
    .ok { symbol := symbol, price := price, change := none,
          change_percent := none, change_24h := some change24,
          timestamp := now_iso, source := "coingecko" }
  | none => .error (.valueError ("No data found for " ++ symbol))

/-- Body of `_fetch_coinbase_price` after `response.json()` returned `data`:
check `"data" in data and "rates" in data["data"]`, then read
`float(data["data"]["rates"]["USD"])` (a missing `"USD"` raises `KeyError`);
else raise `ValueError(f"No data found for {symbol}")`. -/
def parse_coinbase (symbol : String) (data : Json) (now_iso : String) :
    Except PyError Quote :=
  match data.lookup "data" with
  | some inner =>
    if inner.hasKey "rates" then do
      let rates ← inner.getKey "rates"
      let pj ← rates.getKey "USD"
      let price ← pyFloat pj
      .ok { symbol := symbol, price := price, change := none,
            change_percent := none, change_24h := none,
            timestamp := now_iso, source := "coinbase" }
    else .error (.valueError ("No data found for " ++ symbol))
  | none => .error (.valueError ("No data found for " ++ symbol))

/-- Body of `_fetch_polygon_price` after `response.json()` returned `data`:
check `"results" in data and len(data["results"]) > 0`, then read
`data["results"][0]["c"]` (stored without conversion in the source, typed
through `pyFloat` here as for the CoinGecko adapter); else raise
`ValueError(f"No data found for {symbol}")`.  A non-array value under
`"results"` (where Python `len` could raise `TypeError`) is not exercised by
any theorem below and is mapped to the `TypeError`. -/
def parse_polygon (symbol : String) (data : Json) (now_iso : String) :
    Except PyError Quote :=
  match data.lookup "results" with
  | some (.arr results) =>
    match results with
    | r :: _ => do
      let pj ← r.getKey "c"
      let price ← pyFloat pj
      .ok { symbol := symbol, price := price, change := none,
            change_percent := none, change_24h := none,
            timestamp := now_iso, source := "polygon" }
    | [] => .error (.valueError ("No data found for " ++ symbol))
  | some _ => .error (.typeError "object of this type has no len()")
  | none => .error (.valueError ("No data found for " ++ symbol))

/-- Embedding of `PriceOracle._fetch_alpha_vantage_stock`: issue the HTTP request (the
API key travels in the query parameters, which `Env` abstracts), then parse
the response. -/
def _fetch_alpha_vantage_stock (env : Env) (symbol : String) :
    Except PyError Quote :=
  match env.alpha_vantage_response symbol with
  | .error m => .error (.transportError m)
  | .ok data => parse_alpha_vantage symbol data env.now_iso

/-- Embedding of `PriceOracle._fetch_coingecko_price`: `self.crypto_mappings[symbol]`
(raises `KeyError` when absent) supplies the CoinGecko id, the request is
issued (with the demo-key header when the key is truthy, which `Env`
abstracts), and the response parsed. -/
def _fetch_coingecko_price (env : Env) (symbol : String) :
    Except PyError Quote :=
  match crypto_mappings.lookup symbol with
  | none => .error (.keyError symbol)
  | some ids =>
    match env.coingecko_response ids.coingecko with
    | .error m => .error (.transportError m)
    | .ok data => parse_coingecko symbol ids.coingecko data env.now_iso

/-- Embedding of `PriceOracle._fetch_coinbase_price`: `self.crypto_mappings[symbol]`
(raises `KeyError` when absent) computes the pair code — which the request
does not actually use; `params` carries the bare symbol — then the response
is parsed. -/
def _fetch_coinbase_price (env : Env) (symbol : String) :
    Except PyError Quote :=
  match crypto_mappings.lookup symbol with
  | none => .error (.keyError symbol)
  | some _ =>
    match env.coinbase_response symbol with
    | .error m => .error (.transportError m)
    | .ok data => parse_coinbase symbol data env.now_iso

/-- Embedding of `PriceOracle._fetch_polygon_price` for `asset_type="stocks"` (the only
asset type the class ever passes). -/
def _fetch_polygon_price (env : Env) (symbol : String) :
    Except PyError Quote :=
  match env.polygon_response symbol with
  | .error m => .error (.transportError m)
  | .ok data => parse_polygon symbol data env.now_iso

/-- Embedding of `PriceOracle.get_stock_price`: Alpha Vantage if its key is truthy, else
Polygon if its key is truthy, else
`raise ValueError("No stock API key configured. ...")`. -/
def get_stock_price (cfg : Config) (env : Env) (symbol : String) :
    Except PyError Quote :=
  if truthy cfg.alpha_vantage_key then
    _fetch_alpha_vantage_stock env symbol
  else if truthy cfg.polygon_key then
    _fetch_polygon_price env symbol
  else
    .error (.valueError
      "No stock API key configured. Add ALPHA_VANTAGE_API_KEY or POLYGON_API_KEY to .env")

/-- Embedding of `PriceOracle.get_crypto_price`: for a mapped symbol, CoinGecko when its
key is truthy, otherwise Coinbase; for an unmapped symbol,
`raise ValueError(f"Unknown crypto symbol: {symbol}")`. -/
def get_crypto_price (cfg : Config) (env : Env) (symbol : String) :
    Except PyError Quote :=
  if is_crypto_symbol symbol then
    if truthy cfg.coingecko_key then
      _fetch_coingecko_price env symbol
    else
      _fetch_coinbase_price env symbol
  else
    .error (.valueError ("Unknown crypto symbol: " ++ symbol))

/-- The classify-and-dispatch step inside `get_price`'s `try` block: route a
mapped symbol to the crypto path and any other symbol to the stock path. -/
def dispatch_quote (cfg : Config) (env : Env) (symbol : String) :
    Except PyError Quote :=
  if is_crypto_symbol symbol then
    get_crypto_price cfg env symbol
  else
    get_stock_price cfg env symbol

/-- The whole `try` block of `get_price`: dispatch, then `result["price"]`. -/
def get_price_ex (cfg : Config) (env : Env) (symbol : String) :
    Except PyError ℚ :=
  (dispatch_quote cfg env symbol).map Quote.price

/-- What `get_price` hands back: the float, plus the error it printed when
the `except` branch ran (`none` when the `try` block succeeded). -/
structure PriceResult where
  price : ℚ
  reported : Option PyError
deriving Repr

/-- Embedding of `PriceOracle.get_price`: run the `try` block; on any exception print the
error and return the mock price `100.0`. -/
def get_price (cfg : Config) (env : Env) (symbol : String) : PriceResult :=
  match get_price_ex cfg env symbol with
  | .ok p => ⟨p, none⟩
  | .error e => ⟨100, some e⟩

/-- The snapshot dict `contract_interface.get_market_info` returns, with the
fields `resolve_expired_markets` reads. -/
structure MarketInfo where
  resolved : Bool
  deadline : ℚ
  symbol : String

/-- The injected contract collaborator: both operations may raise
(modelled as `Except.error`). -/
structure ContractInterface where
  get_market_info : Nat → Except PyError MarketInfo
  resolve_market : Nat → ℤ → Except PyError Unit

/-- Observable events of one sweep: a `resolve_market` invocation, the
success print, or the per-market error print of the `except` branch. -/
inductive SweepEvent where
  | resolveCall : Nat → ℤ → SweepEvent
  | logResolved : Nat → String → ℚ → SweepEvent
  | logError : Nat → PyError → SweepEvent
deriving DecidableEq, Repr

/-- The body of the per-market `try`/`except` in
`PriceOracle.resolve_expired_markets`: read the snapshot; when it is
unresolved and its deadline lies strictly before `datetime.now().timestamp()`,
get the price, convert with `int(final_price * 100)`, call `resolve_market`
and print; any exception is printed for this market only. -/
def process_market (cfg : Config) (env : Env) (ci : ContractInterface)
    (market_id : Nat) : List SweepEvent :=
  match ci.get_market_info market_id with
  | .error e => [.logError market_id e]
  | .ok info =>
    if info.resolved = false ∧ info.deadline < env.now_ts then
      let final_price := (get_price cfg env info.symbol).price
      let final_price_cents := pyInt (final_price * 100)
      match ci.resolve_market market_id final_price_cents with
      | .error e => [.resolveCall market_id final_price_cents, .logError market_id e]
      | .ok _ => [.resolveCall market_id final_price_cents,
                  .logResolved market_id info.symbol final_price]
    else []

/-- Embedding of `PriceOracle.resolve_expired_markets`: process the supplied market ids in
order, each inside its own `try`/`except`. -/
def resolve_expired_markets (cfg : Config) (env : Env) (ci : ContractInterface)
    (market_ids : List Nat) : List SweepEvent :=
  market_ids.flatMap (process_market cfg env ci)

/-- Number of `resolve_market` invocations recorded in a sweep trace. -/
def countResolveCalls : List SweepEvent → Nat
  | [] => 0
  | .resolveCall _ _ :: rest => countResolveCalls rest + 1
  | _ :: rest => countResolveCalls rest

/-- Recognizer for the spec's `DataNotFoundError`: in the source every
adapter signals "provider reachable but no data for symbol" as
`ValueError(f"No data found for {symbol}")`, a message distinguishable from
the configuration and unknown-symbol `ValueError`s and from the transport
exception classes. -/
def PyError.IsDataNotFound (e : PyError) : Prop :=
  ∃ s : String, e = .valueError ("No data found for " ++ s)

/-- A configuration with no API key set at all. -/
def cfgNone : Config := ⟨none, none, none⟩

/-- A configuration with only the CoinGecko key set. -/
def cfgGecko : Config := ⟨none, some "gk-demo", none⟩

/-- A world in which every provider request fails at the transport layer. -/
def envDown : Env :=
  ⟨fun _ => .error "network unreachable", fun _ => .error "network unreachable",
   fun _ => .error "network unreachable", fun _ => .error "network unreachable",
   "2024-01-01T00:00:00", 1000⟩

/-- A world in which only Coinbase answers, quoting 50000 USD. -/
def envBTC : Env :=
  ⟨fun _ => .error "network unreachable", fun _ => .error "network unreachable",
   fun _ => .ok (.obj [("data", .obj [("rates", .obj [("USD", .num 50000)])])]),
   fun _ => .error "network unreachable",
   "2024-01-01T00:00:00", 1000⟩

/-- A Coinbase body whose envelope (`data`, `rates`) is present but whose
rate table lacks the `USD` entry. -/
def respRatesNoUSD : Json :=
  .obj [("data", .obj [("rates", .obj [])])]

/-- A world in which Coinbase answers with `respRatesNoUSD`. -/
def envNoUSD : Env :=
  ⟨fun _ => .error "network unreachable", fun _ => .error "network unreachable",
   fun _ => .ok respRatesNoUSD, fun _ => .error "network unreachable",
   "2024-01-01T00:00:00", 1000⟩

/-- A collaborator with one due unresolved BTC market snapshot for every id,
whose resolve operation succeeds. -/
def ciGood : ContractInterface :=
  ⟨fun _ => .ok ⟨false, 500, "BTC"⟩, fun _ _ => .ok ()⟩

/-- A collaborator like `ciGood` whose resolve operation raises for market 1
and succeeds for every other market. -/
def ciRevert : ContractInterface :=
  ⟨fun _ => .ok ⟨false, 500, "BTC"⟩,
   fun i _ => if i = 1 then .error (.valueError "execution reverted") else .ok ()⟩

/-- C9: for every symbol absent from the crypto mapping, a direct call to
`get_crypto_price` raises `ValueError("Unknown crypto symbol: ...")` instead
of defaulting to the non-crypto path; the unknown-symbol-defaults-to-equity
policy lives only in `get_price`. -/
theorem get_crypto_price_unknown_symbol_raises
    (cfg : Config) (env : Env) (symbol : String)
    (h : is_crypto_symbol symbol = false) :
    get_crypto_price cfg env symbol =
      .error (.valueError ("Unknown crypto symbol: " ++ symbol)) := by
  simp [get_crypto_price, h]

/-- Witness for C9 at the concrete equity ticker `TSLA`. -/
theorem get_crypto_price_unknown_symbol_raises_witness :
    get_crypto_price cfgNone envDown "TSLA" =
      .error (.valueError ("Unknown crypto symbol: " ++ "TSLA")) :=
  get_crypto_price_unknown_symbol_raises cfgNone envDown "TSLA" rfl

/-- C6: for every symbol, `get_stock_price` queries Alpha Vantage when its
key is configured, otherwise Polygon when its key is configured, and when
neither equity key is configured it fails with the configuration
`ValueError` — it never returns a price and never falls back to a free
provider. -/
theorem get_stock_price_priority (cfg : Config) (env : Env) (symbol : String) :
    (truthy cfg.alpha_vantage_key = true →
      get_stock_price cfg env symbol = _fetch_alpha_vantage_stock env symbol) ∧
    (truthy cfg.alpha_vantage_key = false → truthy cfg.polygon_key = true →
      get_stock_price cfg env symbol = _fetch_polygon_price env symbol) ∧
    (truthy cfg.alpha_vantage_key = false → truthy cfg.polygon_key = false →
      get_stock_price cfg env symbol =
        .error (.valueError
          "No stock API key configured. Add ALPHA_VANTAGE_API_KEY or POLYGON_API_KEY to .env") ∧
      ∀ q : Quote, get_stock_price cfg env symbol ≠ .ok q) := by
  refine ⟨fun ha => ?_, fun ha hp => ?_, fun ha hp => ?_⟩
  · simp [get_stock_price, ha]
  · simp [get_stock_price, ha, hp]
  · simp [get_stock_price, ha, hp]

/-- Witness for C6 with no equity key configured. -/
theorem get_stock_price_priority_witness :
    get_stock_price cfgNone envDown "TSLA" =
      .error (.valueError
        "No stock API key configured. Add ALPHA_VANTAGE_API_KEY or POLYGON_API_KEY to .env") :=
  ((get_stock_price_priority cfgNone envDown "TSLA").2.2 rfl rfl).1

/-- C4 counterexample: classification is not case-insensitive.  The lowercase
casing `"btc"` of the known crypto ticker `"BTC"` is not a member of the
crypto mapping, and `get_price` consequently routes it to the equity path —
with no equity key configured it reports the stock configuration error
instead of querying a crypto provider. -/
theorem classification_not_case_insensitive :
    is_crypto_symbol "BTC" = true ∧ is_crypto_symbol "btc" = false ∧
    get_price cfgNone envDown "btc" =
      ⟨100, some (.valueError
        "No stock API key configured. Add ALPHA_VANTAGE_API_KEY or POLYGON_API_KEY to .env")⟩ :=
  ⟨rfl, rfl, rfl⟩

/-- C4 amended: symbol classification is case-SENSITIVE membership in the
static crypto mapping — exactly the three exact-case tickers `"BTC"`,
`"ETH"`, `"SOL"` classify as crypto and are routed by `get_price` to the
crypto path; every other string (lowercase variants of known tickers
included) is classified non-crypto and routed to the equity path rather than
treated as an error. -/
theorem classification_case_sensitive (cfg : Config) (env : Env) (symbol : String) :
    (is_crypto_symbol symbol = true ↔
      (symbol = "BTC" ∨ symbol = "ETH" ∨ symbol = "SOL")) ∧
    (is_crypto_symbol symbol = true →
      dispatch_quote cfg env symbol = get_crypto_price cfg env symbol) ∧
    (is_crypto_symbol symbol = false →
      dispatch_quote cfg env symbol = get_stock_price cfg env symbol) := by
  refine ⟨?_, fun h => by simp [dispatch_quote, h], fun h => by simp [dispatch_quote, h]⟩
  by_cases h1 : symbol = "BTC"
  · simp [is_crypto_symbol, crypto_mappings, List.lookup, h1]
  · by_cases h2 : symbol = "ETH"
    · simp [is_crypto_symbol, crypto_mappings, List.lookup, h2]
    · by_cases h3 : symbol = "SOL"
      · simp [is_crypto_symbol, crypto_mappings, List.lookup, h3]
      · have e1 : (symbol == "BTC") = false := beq_eq_false_iff_ne.mpr h1
        have e2 : (symbol == "ETH") = false := beq_eq_false_iff_ne.mpr h2
        have e3 : (symbol == "SOL") = false := beq_eq_false_iff_ne.mpr h3
        simp [is_crypto_symbol, crypto_mappings, List.lookup, e1, e2, e3, h1, h2, h3]

/-- Witness for the amended C4 at the lowercase ticker `"btc"`. -/
theorem classification_case_sensitive_witness :
    is_crypto_symbol "btc" = false ∧
    dispatch_quote cfgNone envDown "btc" = get_stock_price cfgNone envDown "btc" :=
  ⟨rfl, (classification_case_sensitive cfgNone envDown "btc").2.2 rfl⟩

/-- C1: `get_price` never propagates an exception.  Whatever error the
classify/dispatch/fetch/normalize chain produces, `get_price` reports it and
returns the sentinel `100.0`; in particular a symbol outside the crypto
mapping with no equity key configured yields the sentinel together with the
reported stock configuration error. -/
theorem get_price_swallows_errors (cfg : Config) (env : Env) (symbol : String) :
    (∀ e : PyError, get_price_ex cfg env symbol = .error e →
      get_price cfg env symbol = ⟨100, some e⟩) ∧
    (is_crypto_symbol symbol = false → truthy cfg.alpha_vantage_key = false →
      truthy cfg.polygon_key = false →
      get_price cfg env symbol =
        ⟨100, some (.valueError
          "No stock API key configured. Add ALPHA_VANTAGE_API_KEY or POLYGON_API_KEY to .env")⟩) := by
  constructor
  · intro e he
    simp [get_price, he]
  · intro hc ha hp
    have hx : get_price_ex cfg env symbol =
        .error (.valueError
          "No stock API key configured. Add ALPHA_VANTAGE_API_KEY or POLYGON_API_KEY to .env") := by
      simp [get_price_ex, dispatch_quote, hc, get_stock_price, ha, hp, Except.map]
    simp [get_price, hx]

/-- Witness for C1 at the equity ticker `TSLA` with an empty configuration. -/
theorem get_price_swallows_errors_witness :
    get_price cfgNone envDown "TSLA" =
      ⟨100, some (.valueError
        "No stock API key configured. Add ALPHA_VANTAGE_API_KEY or POLYGON_API_KEY to .env")⟩ :=
  (get_price_swallows_errors cfgNone envDown "TSLA").2 rfl rfl rfl

/-- Helper: a successful CoinGecko parse tags its quote with source
`"coingecko"`. -/
theorem parse_coingecko_source {s g : String} {d : Json} {t : String} {q : Quote}
    (h : parse_coingecko s g d t = .ok q) : q.source = "coingecko" := by
  unfold parse_coingecko at h
  simp only [Bind.bind, Except.bind] at h
  repeat' split at h
  all_goals (cases h <;> rfl)

/-- Helper: a successful Coinbase parse tags its quote with source
`"coinbase"`. -/
theorem parse_coinbase_source {s : String} {d : Json} {t : String} {q : Quote}
    (h : parse_coinbase s d t = .ok q) : q.source = "coinbase" := by
  unfold parse_coinbase at h
  simp only [Bind.bind, Except.bind] at h
  repeat' split at h
  all_goals (cases h <;> rfl)

/-- Helper: a successful CoinGecko fetch tags its quote with source
`"coingecko"`. -/
theorem fetch_coingecko_source {env : Env} {s : String} {q : Quote}
    (h : _fetch_coingecko_price env s = .ok q) : q.source = "coingecko" := by
  unfold _fetch_coingecko_price at h
  repeat' split at h
  · exact absurd h (by simp)
  · exact absurd h (by simp)
  · exact parse_coingecko_source h

/-- Helper: a successful Coinbase fetch tags its quote with source
`"coinbase"`. -/
theorem fetch_coinbase_source {env : Env} {s : String} {q : Quote}
    (h : _fetch_coinbase_price env s = .ok q) : q.source = "coinbase" := by
  unfold _fetch_coinbase_price at h
  repeat' split at h
  · exact absurd h (by simp)
  · exact absurd h (by simp)
  · exact parse_coinbase_source h

/-- C5: for every known crypto ticker, `get_crypto_price` queries exactly one
provider per call in the fixed preference order — CoinGecko when its key is
configured, else Coinbase as the guaranteed no-key fallback — tags the
returned quote's `source` with the provider actually used, and a failed
CoinGecko call is not retried against Coinbase within the same call (the
keyed result does not depend on the Coinbase side of the world at all). -/
theorem crypto_provider_preference (cfg : Config) (env : Env) (symbol : String)
    (h : is_crypto_symbol symbol = true) :
    (truthy cfg.coingecko_key = true →
      get_crypto_price cfg env symbol = _fetch_coingecko_price env symbol ∧
      (∀ q : Quote, get_crypto_price cfg env symbol = .ok q → q.source = "coingecko") ∧
      (∀ env₂ : Env, env₂.coingecko_response = env.coingecko_response →
        env₂.now_iso = env.now_iso →
        get_crypto_price cfg env₂ symbol = get_crypto_price cfg env symbol)) ∧
    (truthy cfg.coingecko_key = false →
      get_crypto_price cfg env symbol = _fetch_coinbase_price env symbol ∧
      (∀ q : Quote, get_crypto_price cfg env symbol = .ok q → q.source = "coinbase")) := by
  constructor
  · intro hk
    have he : get_crypto_price cfg env symbol = _fetch_coingecko_price env symbol := by
      simp [get_crypto_price, h, hk]
    refine ⟨he, fun q hq => fetch_coingecko_source (he.symm.trans hq),
      fun env₂ hresp hiso => ?_⟩
    have he₂ : get_crypto_price cfg env₂ symbol = _fetch_coingecko_price env₂ symbol := by
      simp [get_crypto_price, h, hk]
    rw [he, he₂]
    unfold _fetch_coingecko_price
    rw [hresp, hiso]
  · intro hk
    have he : get_crypto_price cfg env symbol = _fetch_coinbase_price env symbol := by
      simp [get_crypto_price, h, hk]
    exact ⟨he, fun q hq => fetch_coinbase_source (he.symm.trans hq)⟩

/-- Witness for C5: with a CoinGecko key configured, `BTC` goes to the
CoinGecko adapter. -/
theorem crypto_provider_preference_witness :
    get_crypto_price cfgGecko envDown "BTC" = _fetch_coingecko_price envDown "BTC" :=
  ((crypto_provider_preference cfgGecko envDown "BTC" rfl).1 rfl).1

/-- C7 counterexample: a missing expected NESTED field does not raise the
typed data-not-found error.  The Coinbase adapter, fed the well-formed body
`{"data": {"rates": {}}}` whose envelope is present but whose rate table
lacks `"USD"`, crashes with a generic `KeyError` instead. -/
theorem adapter_nested_key_generic_crash :
    _fetch_coinbase_price envNoUSD "BTC" = .error (.keyError "USD") ∧
    ¬ (PyError.keyError "USD").IsDataNotFound := by
  refine ⟨rfl, ?_⟩
  rintro ⟨s, hs⟩
  exact absurd hs (by simp)

/-- C7 amended: each adapter raises the typed data-not-found `ValueError`
exactly when the top-level envelope key it checks is absent from a
well-formed (object) response; a nested field missing inside a present
envelope instead surfaces as a generic key-lookup error (see the
counterexample). -/
theorem adapter_missing_envelope_data_not_found
    (symbol gecko_id t : String) (fields : List (String × Json)) :
    ((Json.obj fields).hasKey "Global Quote" = false →
      parse_alpha_vantage symbol (.obj fields) t =
        .error (.valueError ("No data found for " ++ symbol))) ∧
    ((Json.obj fields).hasKey gecko_id = false →
      parse_coingecko symbol gecko_id (.obj fields) t =
        .error (.valueError ("No data found for " ++ symbol))) ∧
    ((Json.obj fields).hasKey "data" = false →
      parse_coinbase symbol (.obj fields) t =
        .error (.valueError ("No data found for " ++ symbol))) ∧
    ((Json.obj fields).hasKey "results" = false →
      parse_polygon symbol (.obj fields) t =
        .error (.valueError ("No data found for " ++ symbol))) ∧
    (PyError.valueError ("No data found for " ++ symbol)).IsDataNotFound := by
  refine ⟨fun h => ?_, fun h => ?_, fun h => ?_, fun h => ?_, ⟨symbol, rfl⟩⟩
  · have hn : Json.lookup (.obj fields) "Global Quote" = none := by
      cases hx : Json.lookup (.obj fields) "Global Quote"
      · rfl
      · simp [Json.hasKey, hx] at h
    unfold parse_alpha_vantage
    rw [hn]
  · have hn : Json.lookup (.obj fields) gecko_id = none := by
      cases hx : Json.lookup (.obj fields) gecko_id
      · rfl
      · simp [Json.hasKey, hx] at h
    unfold parse_coingecko
    rw [hn]
  · have hn : Json.lookup (.obj fields) "data" = none := by
      cases hx : Json.lookup (.obj fields) "data"
      · rfl
      · simp [Json.hasKey, hx] at h
    unfold parse_coinbase
    rw [hn]
  · have hn : Json.lookup (.obj fields) "results" = none := by
      cases hx : Json.lookup (.obj fields) "results"
      · rfl
      · simp [Json.hasKey, hx] at h
    unfold parse_polygon
    rw [hn]

/-- Witness for the amended C7: the empty object is missing every envelope
key, so the Alpha Vantage adapter reports data-not-found on it. -/
theorem adapter_missing_envelope_data_not_found_witness :
    parse_alpha_vantage "TSLA" (.obj []) "2024-01-01T00:00:00" =
      .error (.valueError ("No data found for " ++ "TSLA")) :=
  (adapter_missing_envelope_data_not_found "TSLA" "bitcoin"
    "2024-01-01T00:00:00" []).1 rfl

/-- Helper: the Alpha Vantage parse result, timestamp ignored, does not
depend on the clock. -/
theorem parse_alpha_vantage_strip (s : String) (d : Json) (t t' : String) :
    (parse_alpha_vantage s d t).map Quote.stripTimestamp =
      (parse_alpha_vantage s d t').map Quote.stripTimestamp := by
  unfold parse_alpha_vantage
  simp only [Bind.bind, Except.bind]
  repeat' split
  all_goals rfl

/-- Helper: the CoinGecko parse result, timestamp ignored, does not depend
on the clock. -/
theorem parse_coingecko_strip (s g : String) (d : Json) (t t' : String) :
    (parse_coingecko s g d t).map Quote.stripTimestamp =
      (parse_coingecko s g d t').map Quote.stripTimestamp := by
  unfold parse_coingecko
  simp only [Bind.bind, Except.bind]
  repeat' split
  all_goals rfl

/-- Helper: the Coinbase parse result, timestamp ignored, does not depend on
the clock. -/
theorem parse_coinbase_strip (s : String) (d : Json) (t t' : String) :
    (parse_coinbase s d t).map Quote.stripTimestamp =
      (parse_coinbase s d t').map Quote.stripTimestamp := by
  unfold parse_coinbase
  simp only [Bind.bind, Except.bind]
  repeat' split
  all_goals rfl

/-- Helper: the Polygon parse result, timestamp ignored, does not depend on
the clock. -/
theorem parse_polygon_strip (s : String) (d : Json) (t t' : String) :
    (parse_polygon s d t).map Quote.stripTimestamp =
      (parse_polygon s d t').map Quote.stripTimestamp := by
  unfold parse_polygon
  simp only [Bind.bind, Except.bind]
  repeat' split
  all_goals rfl

/-- Helper: the Alpha Vantage fetch, timestamp ignored, depends only on that
provider's responses. -/
theorem fetch_av_strip {env₁ env₂ : Env}
    (hr : env₁.alpha_vantage_response = env₂.alpha_vantage_response) (s : String) :
    (_fetch_alpha_vantage_stock env₁ s).map Quote.stripTimestamp =
      (_fetch_alpha_vantage_stock env₂ s).map Quote.stripTimestamp := by
  unfold _fetch_alpha_vantage_stock
  rw [hr]
  repeat' split
  all_goals first | rfl | apply parse_alpha_vantage_strip

/-- Helper: the CoinGecko fetch, timestamp ignored, depends only on that
provider's responses. -/
theorem fetch_gecko_strip {env₁ env₂ : Env}
    (hr : env₁.coingecko_response = env₂.coingecko_response) (s : String) :
    (_fetch_coingecko_price env₁ s).map Quote.stripTimestamp =
      (_fetch_coingecko_price env₂ s).map Quote.stripTimestamp := by
  unfold _fetch_coingecko_price
  rw [hr]
  repeat' split
  all_goals first | rfl | apply parse_coingecko_strip

/-- Helper: the Coinbase fetch, timestamp ignored, depends only on that
provider's responses. -/
theorem fetch_cb_strip {env₁ env₂ : Env}
    (hr : env₁.coinbase_response = env₂.coinbase_response) (s : String) :
    (_fetch_coinbase_price env₁ s).map Quote.stripTimestamp =
      (_fetch_coinbase_price env₂ s).map Quote.stripTimestamp := by
  unfold _fetch_coinbase_price
  rw [hr]
  repeat' split
  all_goals first | rfl | apply parse_coinbase_strip

/-- Helper: the Polygon fetch, timestamp ignored, depends only on that
provider's responses. -/
theorem fetch_polygon_strip {env₁ env₂ : Env}
    (hr : env₁.polygon_response = env₂.polygon_response) (s : String) :
    (_fetch_polygon_price env₁ s).map Quote.stripTimestamp =
      (_fetch_polygon_price env₂ s).map Quote.stripTimestamp := by
  unfold _fetch_polygon_price
  rw [hr]
  repeat' split
  all_goals first | rfl | apply parse_polygon_strip

/-- Helper: classify-and-dispatch, timestamp ignored, is a function of the
symbol, the credentials, and the provider responses alone. -/
theorem dispatch_strip {env₁ env₂ : Env}
    (h1 : env₁.alpha_vantage_response = env₂.alpha_vantage_response)
    (h2 : env₁.coingecko_response = env₂.coingecko_response)
    (h3 : env₁.coinbase_response = env₂.coinbase_response)
    (h4 : env₁.polygon_response = env₂.polygon_response)
    (cfg : Config) (s : String) :
    (dispatch_quote cfg env₁ s).map Quote.stripTimestamp =
      (dispatch_quote cfg env₂ s).map Quote.stripTimestamp := by
  unfold dispatch_quote get_crypto_price get_stock_price
  repeat' split
  all_goals first
    | rfl
    | exact fetch_av_strip h1 s
    | exact fetch_gecko_strip h2 s
    | exact fetch_cb_strip h3 s
    | exact fetch_polygon_strip h4 s

/-- Helper: quotes equal up to timestamp have equal price projections. -/
theorem price_eq_of_strip_eq {d1 d2 : Except PyError Quote}
    (h : d1.map Quote.stripTimestamp = d2.map Quote.stripTimestamp) :
    d1.map Quote.price = d2.map Quote.price := by
  cases d1 with
  | error e1 =>
    cases d2 with
    | error e2 =>
      have he : e1 = e2 := by simpa [Except.map] using h
      rw [he]
    | ok q2 => exact absurd h (by simp [Except.map])
  | ok q1 =>
    cases d2 with
    | error e2 => exact absurd h (by simp [Except.map])
    | ok q2 =>
      have hq : q1.stripTimestamp = q2.stripTimestamp := by simpa [Except.map] using h
      have hp : q1.price = q2.price := congrArg QuoteData.price hq
      simp [Except.map, hp]

/-- C8: with the same credential configuration and the same provider
responses, two `get_price` calls made at different wall-clock instants (both
clock fields varied) select the same provider and produce identical quote
values in every field except `timestamp` (the stripped dispatch results
coincide, hence so do the `source` tags and the returned prices). -/
theorem dispatch_deterministic_modulo_timestamp
    (cfg : Config) (env : Env) (symbol : String) (t' : String) (n' : ℚ) :
    (dispatch_quote cfg { env with now_iso := t', now_ts := n' } symbol).map
        Quote.stripTimestamp =
      (dispatch_quote cfg env symbol).map Quote.stripTimestamp ∧
    get_price cfg { env with now_iso := t', now_ts := n' } symbol =
      get_price cfg env symbol := by
  have hstrip :
      (dispatch_quote cfg { env with now_iso := t', now_ts := n' } symbol).map
          Quote.stripTimestamp =
        (dispatch_quote cfg env symbol).map Quote.stripTimestamp :=
    @dispatch_strip { env with now_iso := t', now_ts := n' } env rfl rfl rfl rfl cfg symbol
  refine ⟨hstrip, ?_⟩
  have hpx : get_price_ex cfg { env with now_iso := t', now_ts := n' } symbol =
      get_price_ex cfg env symbol := by
    unfold get_price_ex
    exact price_eq_of_strip_eq hstrip
  unfold get_price
  rw [hpx]

/-- C2: for every market id whose snapshot reads successfully, the sweep
skips a market already marked resolved, skips a market whose deadline has
not passed relative to the current wall clock, and otherwise calls the
collaborator's `resolve_market` exactly once with the fresh oracle price
converted to integer cents by truncation toward zero — for oracle price
50000.0 the resolve argument is 5000000. -/
theorem sweep_market_behavior (cfg : Config) (env : Env) (ci : ContractInterface)
    (id : Nat) (info : MarketInfo) (h : ci.get_market_info id = .ok info) :
    (info.resolved = true → process_market cfg env ci id = []) ∧
    (¬ info.deadline < env.now_ts → process_market cfg env ci id = []) ∧
    (info.resolved = false → info.deadline < env.now_ts →
      countResolveCalls (process_market cfg env ci id) = 1 ∧
      ∃ rest, process_market cfg env ci id =
        .resolveCall id (pyInt ((get_price cfg env info.symbol).price * 100)) :: rest) ∧
    (info.resolved = false → info.deadline < env.now_ts →
      (get_price cfg env info.symbol).price = 50000 →
      ∃ rest, process_market cfg env ci id = .resolveCall id 5000000 :: rest) := by
  unfold process_market
  simp only [h]
  refine ⟨fun hr => by simp [hr], fun hd => by simp [hd], fun hr hd => ?_, fun hr hd hp => ?_⟩
  · rw [if_pos ⟨hr, hd⟩]
    split
    · exact ⟨rfl, _, rfl⟩
    · exact ⟨rfl, _, rfl⟩
  · rw [if_pos ⟨hr, hd⟩]
    have hc : pyInt ((get_price cfg env info.symbol).price * 100) = 5000000 := by
      rw [hp]; norm_num [pyInt]
    simp only [hc]
    split
    · exact ⟨_, rfl⟩
    · exact ⟨_, rfl⟩

/-- Witness for C2: one due unresolved BTC market, Coinbase quoting 50000,
resolves with argument 5000000. -/
theorem sweep_market_behavior_witness :
    ∃ rest, process_market cfgNone envBTC ciGood 7 = .resolveCall 7 5000000 :: rest :=
  (sweep_market_behavior cfgNone envBTC ciGood 7 ⟨false, 500, "BTC"⟩ rfl).2.2.2
    rfl (by norm_num [envBTC]) rfl

/-- C3: the sweep never raises and isolates failures per market: the events
of the whole sweep are the concatenation of each market's own events, so
whatever happens at one market id — a snapshot read that raises, or a
resolve call that raises, both of which are caught and logged for that
market only — the markets before and after it are processed exactly as they
would be alone. -/
theorem sweep_isolates_failures (cfg : Config) (env : Env) (ci : ContractInterface)
    (pre post : List Nat) (x : Nat) :
    resolve_expired_markets cfg env ci (pre ++ x :: post) =
      resolve_expired_markets cfg env ci pre ++ process_market cfg env ci x ++
        resolve_expired_markets cfg env ci post ∧
    (∀ e : PyError, ci.get_market_info x = .error e →
      process_market cfg env ci x = [.logError x e]) ∧
    (∀ (info : MarketInfo) (e : PyError), ci.get_market_info x = .ok info →
      info.resolved = false → info.deadline < env.now_ts →
      ci.resolve_market x (pyInt ((get_price cfg env info.symbol).price * 100)) = .error e →
      process_market cfg env ci x =
        [.resolveCall x (pyInt ((get_price cfg env info.symbol).price * 100)),
         .logError x e]) := by
  refine ⟨?_, fun e he => by simp [process_market, he], fun info e hi hr hd hres => ?_⟩
  · unfold resolve_expired_markets
    simp [List.flatMap_append, List.flatMap_cons, List.append_assoc]
  · unfold process_market
    simp only [hi]
    rw [if_pos ⟨hr, hd⟩]
    simp only [hres]

/-- Witness for C3: market 1's resolver raises, the sweep still decomposes
into per-market events and logs the failure for market 1 alone. -/
theorem sweep_isolates_failures_witness :
    resolve_expired_markets cfgNone envBTC ciRevert ([] ++ 1 :: [2]) =
      resolve_expired_markets cfgNone envBTC ciRevert [] ++
        process_market cfgNone envBTC ciRevert 1 ++
        resolve_expired_markets cfgNone envBTC ciRevert [2] ∧
    process_market cfgNone envBTC ciRevert 1 =
      [.resolveCall 1 (pyInt ((get_price cfgNone envBTC "BTC").price * 100)),
       .logError 1 (.valueError "execution reverted")] :=
  ⟨(sweep_isolates_failures cfgNone envBTC ciRevert [] [2] 1).1,
   (sweep_isolates_failures cfgNone envBTC ciRevert [] [2] 1).2.2 ⟨false, 500, "BTC"⟩
     (.valueError "execution reverted") rfl rfl (by norm_num [envBTC]) rfl⟩

/-- C10: a due unresolved market whose symbol's price lookup fails in every
provider is not skipped: `get_price` swallows the failure into the sentinel
100.0, and the sweep proceeds to call `resolve_market` with 10000 cents,
resolving the market at the placeholder price. -/
theorem sweep_resolves_at_sentinel (cfg : Config) (env : Env) (ci : ContractInterface)
    (id : Nat) (info : MarketInfo) (e : PyError)
    (h1 : ci.get_market_info id = .ok info) (h2 : info.resolved = false)
    (h3 : info.deadline < env.now_ts)
    (h4 : get_price_ex cfg env info.symbol = .error e) :
    ∃ rest, process_market cfg env ci id = .resolveCall id 10000 :: rest := by
  have hp : (get_price cfg env info.symbol).price = 100 := by
    simp [get_price, h4]
  unfold process_market
  simp only [h1]
  rw [if_pos ⟨h2, h3⟩]
  have hc : pyInt ((get_price cfg env info.symbol).price * 100) = 10000 := by
    rw [hp]; norm_num [pyInt]
  simp only [hc]
  split
  · exact ⟨_, rfl⟩
  · exact ⟨_, rfl⟩

/-- Witness for C10: every provider down, the due BTC market is resolved at
10000 cents. -/
theorem sweep_resolves_at_sentinel_witness :
    ∃ rest, process_market cfgNone envDown ciGood 3 = .resolveCall 3 10000 :: rest :=
  sweep_resolves_at_sentinel cfgNone envDown ciGood 3 ⟨false, 500, "BTC"⟩
    (.transportError "network unreachable") rfl rfl (by norm_num [envDown]) rfl
